import Mathlib

/-!
Verification of the smart-factory staffing rules
(`smart_factory/ensembles.py` and `smart_factory/run.py`) of the
ml-deeco security case study.

The five concrete rules (ensembles) of `ensembles.py` — `ShiftTeam`,
`AccessToFactory`, `AccessToDispenser`, `AccessToWorkPlace`,
`LateWorkersReplacement` — are embedded shallowly: each `select`
predicate, `cardinality` bound, `situation` window, `priority` offset
and `actuate` body is translated from the source.  The generic
role-resolution engine (`ml_deeco.simulation`), the component classes
(`components.py`) and the tick clock (`helpers.now`) are parts of the
repository that are not under `src/`; those are modelled from the
specification (see the individual doc comments).
-/

/-- A worker component.  `hasHeadGear` is the static capability flag of
`components.py`; `isAtFactory` is a snapshot of the derived predicate
of the worker state machine ("the worker is at the facility"), modelled
from the spec since `components.py` is not under `src/`. -/
structure Worker where
  wid : Nat
  hasHeadGear : Bool
  isAtFactory : Bool
deriving DecidableEq, Repr

/-- A shift roster, after `components.Shift` as described by the spec:
`assigned` and `standbys` are the fixed worker sets, `cancelled` and
`calledStandbys` are append-only lists, `workers` is the roster field
published by `ShiftTeam.actuate`, `startTime` and `endTime` delimit the
shift.  Sets are represented as lists of distinct workers. -/
structure Shift where
  assigned : List Worker
  cancelled : List Worker
  standbys : List Worker
  calledStandbys : List Worker
  workers : List Worker
  startTime : Int
  endTime : Int
deriving DecidableEq, Repr

/-- Modelled from the spec: the `availableStandbys` attribute of
`components.Shift` (not under `src/`) — the reserve workers of the
shift that have not been called yet (spec: `calledStandbys ⊆ standbys`,
a standby is "used to replace a late worker"). -/
def Shift.availableStandbys (s : Shift) : List Worker :=
  s.standbys.filter (fun w => decide (w ∉ s.calledStandbys))

/-- Modelled from the spec (§4.2, step 4): greedy bounded role
selection of the ml_deeco engine (not under `src/`).  The selection
predicate is evaluated over the candidate pool and a subset of size at
most `maxCard` is chosen; the deterministic tie-break is the stable
order of the pool. -/
def selectRole (pred : Worker → Bool) (pool : List Worker) (maxCard : Nat) :
    List Worker :=
  (pool.filter pred).take maxCard

/-- `ShiftTeam.workers` select (ensembles.py:16-19):
`worker in (assigned - cancelled) or worker in calledStandbys`. -/
def shiftTeamSelect (s : Shift) (w : Worker) : Bool :=
  decide ((w ∈ s.assigned ∧ w ∉ s.cancelled) ∨ w ∈ s.calledStandbys)

/-- `ShiftTeam.workers` cardinality upper bound (ensembles.py:21-23):
`return 0, 99999`. -/
def shiftTeamMaxCard : Nat := 99999

/-- The resolved `workers` role of `ShiftTeam`. -/
def shiftTeamWorkers (pool : List Worker) (s : Shift) : List Worker :=
  selectRole (shiftTeamSelect s) pool shiftTeamMaxCard

/-- `ShiftTeam.actuate` (ensembles.py:25-26): publish the resolved
worker set onto the roster. -/
def shiftTeamActuate (pool : List Worker) (s : Shift) : Shift :=
  { s with workers := shiftTeamWorkers pool s }

/-- `AccessToFactory.situation` (ensembles.py:42-45):
`startTime - 30 < now() < endTime + 30`. -/
def accessToFactorySituation (s : Shift) (now : Int) : Bool :=
  decide (s.startTime - 30 < now ∧ now < s.endTime + 30)

/-- `AccessToDispenser.situation` (ensembles.py:64-67):
`startTime - 15 < now() < endTime`. -/
def accessToDispenserSituation (s : Shift) (now : Int) : Bool :=
  decide (s.startTime - 15 < now ∧ now < s.endTime)

/-- `AccessToWorkPlace.situation` (ensembles.py:86-89):
`startTime - 30 < now() < endTime + 30`. -/
def accessToWorkPlaceSituation (s : Shift) (now : Int) : Bool :=
  decide (s.startTime - 30 < now ∧ now < s.endTime + 30)

/-- `LateWorkersReplacement.situation` (ensembles.py:123-126):
`startTime - 15 < now() < endTime`. -/
def lateReplacementSituation (s : Shift) (now : Int) : Bool :=
  decide (s.startTime - 15 < now ∧ now < s.endTime)

/-- `AccessToWorkPlace.workers` select (ensembles.py:93-95):
`worker in self.shiftTeam.workers and worker.hasHeadGear`, where
`shiftTeam.workers` is the parent ensemble's resolved role. -/
def accessToWorkPlaceSelect (teamWorkers : List Worker) (w : Worker) : Bool :=
  decide (w ∈ teamWorkers) && w.hasHeadGear

/-- The resolved `workers` role of `AccessToWorkPlace`
(ensembles.py:98-100): the cardinality bound is
`len(self.shiftTeam.workers)`, read, following the spec ("subset of
team workers with `hasHeadGear`, max = team size"), as the upper bound
with no minimum; the engine semantics are modelled from the spec since
`ml_deeco` is not under `src/`. -/
def accessToWorkPlaceWorkers (pool teamWorkers : List Worker) : List Worker :=
  selectRole (accessToWorkPlaceSelect teamWorkers) pool teamWorkers.length

/-- `LateWorkersReplacement.lateWorkers` select (ensembles.py:130-132):
`worker in self.shift.assigned - self.shift.cancelled and worker.isAtFactory`. -/
def lateWorkersSelect (s : Shift) (w : Worker) : Bool :=
  decide (w ∈ s.assigned ∧ w ∉ s.cancelled) && w.isAtFactory

/-- The resolved `lateWorkers` role of `LateWorkersReplacement`
(ensembles.py:134-136): cardinality `0, 99999`. -/
def lateWorkersRole (pool : List Worker) (s : Shift) : List Worker :=
  selectRole (lateWorkersSelect s) pool 99999

/-- `LateWorkersReplacement.standbys` select (ensembles.py:140-143):
`worker in self.shift.availableStandbys`. -/
def standbysSelect (s : Shift) (w : Worker) : Bool :=
  decide (w ∈ s.availableStandbys)

/-- The resolved `standbys` role of `LateWorkersReplacement`
(ensembles.py:145-147): cardinality `0, len(self.lateWorkers)`. -/
def standbysRole (pool : List Worker) (s : Shift) (late : List Worker) :
    List Worker :=
  selectRole (standbysSelect s) pool late.length

/-- `LateWorkersReplacement.actuate` (ensembles.py:149-154), with the
exception made explicit: if `len(standbys) < len(lateWorkers)` the
`RuntimeError` is raised (flag `true`) before any mutation; otherwise
the late workers are appended to `cancelled` and the chosen standbys to
`calledStandbys` (flag `false`). -/
def lateReplacementActuate (s : Shift) (late stb : List Worker) :
    Shift × Bool :=
  if stb.length < late.length then (s, true)
  else
    ({ s with cancelled := s.cancelled ++ late,
              calledStandbys := s.calledStandbys ++ stb }, false)

/-- `ShiftTeam.priority`: inherited from the engine's `Ensemble` base
class (not under `src/`); modelled from the spec as an opaque resolved
base priority `p`. -/
def shiftTeamPriority (p : Int) : Int := p

/-- `AccessToFactory.priority` (ensembles.py:39-40):
`self.shiftTeam.priority() - 1`. -/
def accessToFactoryPriority (p : Int) : Int := shiftTeamPriority p - 1

/-- `AccessToDispenser.priority` (ensembles.py:61-62):
`self.shiftTeam.priority() - 1`. -/
def accessToDispenserPriority (p : Int) : Int := shiftTeamPriority p - 1

/-- `AccessToWorkPlace.priority` (ensembles.py:83-84):
`self.shiftTeam.priority() - 1`. -/
def accessToWorkPlacePriority (p : Int) : Int := shiftTeamPriority p - 1

/-- `LateWorkersReplacement.priority` (ensembles.py:120-121):
`self.shiftTeam.priority() + 1`. -/
def lateWorkersReplacementPriority (p : Int) : Int := shiftTeamPriority p + 1

/-- The tick's "use dispenser" grants of `AccessToDispenser`
(ensembles.py:69-70): when the situation holds, `allow` is invoked for
the parent ensemble's resolved team workers; modelled from the spec
("grant for this tick"; grants are not persisted), the grant set of a
tick is empty when the rule is inactive. -/
def dispenserGrants (s : Shift) (teamWorkers : List Worker) (now : Int) :
    List Worker :=
  if accessToDispenserSituation s now then teamWorkers else []

/-- The tick's "enter workplace" grants of `AccessToWorkPlace`
(ensembles.py:102-103): when the situation holds, `allow` is invoked
for the rule's own resolved `workers` role. -/
def workPlaceGrants (s : Shift) (pool teamWorkers : List Worker) (now : Int) :
    List Worker :=
  if accessToWorkPlaceSituation s now then
    accessToWorkPlaceWorkers pool teamWorkers
  else []

/-- The resolved role member sets of the five rules on one tick. -/
structure ResolvedRoles where
  lateWorkers : List Worker
  standbys : List Worker
  teamWorkers : List Worker
  factoryGrants : List Worker
  dispenserGrants : List Worker
  workPlaceGrants : List Worker
deriving DecidableEq, Repr

/-- Modelled from the spec (§4.2): one engine pass over the five rules
of a single shift, in descending resolved-priority order —
`LateWorkersReplacement` (parent + 1) first, then `ShiftTeam`, then the
three access rules (parent − 1), each gated by its situation predicate;
`none` is the fatal standby-shortage abort.  The rule bodies themselves
are the source translations above. -/
def tickStep (pool : List Worker) (s : Shift) (now : Int) :
    Option (Shift × ResolvedRoles) :=
  let late := if lateReplacementSituation s now then lateWorkersRole pool s else []
  let stb := if lateReplacementSituation s now then standbysRole pool s late else []
  let acted :=
    if lateReplacementSituation s now then lateReplacementActuate s late stb
    else (s, false)
  if acted.2 then none
  else
    let s1 := acted.1
    let team := shiftTeamWorkers pool s1
    let s2 := { s1 with workers := team }
    some (s2,
      { lateWorkers := late
        standbys := stb
        teamWorkers := team
        factoryGrants := if accessToFactorySituation s2 now then team else []
        dispenserGrants := if accessToDispenserSituation s2 now then team else []
        workPlaceGrants := if accessToWorkPlaceSituation s2 now then
            accessToWorkPlaceWorkers pool team
          else [] })

/-- A concrete worker that has already arrived at the facility before
the cancellation deadline (Scenario A of the spec). -/
def wPresent : Worker := ⟨1, true, true⟩

/-- A concrete worker that is still not at the facility at the
cancellation deadline (Scenario A of the spec). -/
def wMissing : Worker := ⟨2, true, false⟩

/-- A concrete standby worker of the example shift. -/
def sbA : Worker := ⟨3, true, false⟩

/-- The example shift of Scenario A: `startTime = 480`,
`endTime = 960`, two assigned workers, one standby, nothing cancelled
or called yet. -/
def sh0 : Shift := ⟨[wPresent, wMissing], [], [sbA], [], [], 480, 960⟩

/-- The candidate pool of the example: all worker components. -/
def pool0 : List Worker := [wPresent, wMissing, sbA]

/-- C1 (code bug): evaluation of the `lateWorkers` selection predicate
(ensembles.py:130-132) at the failing input.  At tick `470`
(`startTime − cancellationBaseline` of Scenario A, inside the
activation window) the code selects the worker that HAS arrived at the
facility (`worker.isAtFactory` is required positively) and rejects the
worker that is still missing, and `CONFIGURATION.cancellationBaseline`
(run.py:42, help text "Cancel missing workers 'baseline' minutes
before the shift starts") is never consulted by the predicate — the
opposite of the claimed (and intended) lateness test. -/
theorem lateWorkersSelect_selects_present_worker :
    lateReplacementSituation sh0 470 = true ∧
    lateWorkersSelect sh0 wPresent = true ∧
    lateWorkersSelect sh0 wMissing = false ∧
    lateWorkersRole pool0 sh0 = [wPresent] := by decide

/-- Helper: the success case of the replacement actuation performs
exactly the two appends. -/
theorem lateReplacementActuate_ok (s : Shift) (late stb : List Worker)
    (h : (lateReplacementActuate s late stb).2 = false) :
    (lateReplacementActuate s late stb).1.cancelled = s.cancelled ++ late ∧
    (lateReplacementActuate s late stb).1.calledStandbys
      = s.calledStandbys ++ stb := by
  unfold lateReplacementActuate at h ⊢
  by_cases hc : stb.length < late.length
  · simp [hc] at h
  · simp [hc]

/-- C2: `LateWorkersReplacement.actuate` (ensembles.py:149-154) raises
the fatal `RuntimeError` exactly when fewer standbys than late workers
were selected, and otherwise appends the late workers to
`shift.cancelled` and the chosen standbys to `shift.calledStandbys`. -/
theorem lateReplacementActuate_spec (s : Shift) (late stb : List Worker) :
    ((lateReplacementActuate s late stb).2 = true ↔ stb.length < late.length) ∧
    ((lateReplacementActuate s late stb).2 = false →
      (lateReplacementActuate s late stb).1.cancelled = s.cancelled ++ late ∧
      (lateReplacementActuate s late stb).1.calledStandbys
        = s.calledStandbys ++ stb) := by
  unfold lateReplacementActuate
  by_cases h : stb.length < late.length <;> simp [h]

/-- C2 witness: on the example shift with one late worker and one
chosen standby no error is raised and both appends happen. -/
theorem lateReplacementActuate_spec_witness :
    (lateReplacementActuate sh0 [wMissing] [sbA]).1.cancelled
        = sh0.cancelled ++ [wMissing] ∧
    (lateReplacementActuate sh0 [wMissing] [sbA]).1.calledStandbys
        = sh0.calledStandbys ++ [sbA] :=
  (lateReplacementActuate_spec sh0 [wMissing] [sbA]).2 (by decide)

/-- C3 (counterexample): the dispenser-access rule is NOT yet active at
tick `startTime − 15`.  On the Scenario-C shift (`startTime = 480`,
`endTime = 960`) the situation `startTime - 15 < now < endTime`
(ensembles.py:64-67) is false at tick `465 = 480 − 15`, so no "use
dispenser" grant exists there, contrary to the claim that the grant
begins at that tick. -/
theorem dispenser_not_active_at_start_minus_15 :
    sh0.startTime - 15 = 465 ∧
    accessToDispenserSituation sh0 465 = false ∧
    dispenserGrants sh0 [wPresent] 465 = [] := by decide

/-- C3 (amended): the dispenser-access rule is active on exactly the
ticks `t` with `startTime − 15 < t < endTime`: at tick `startTime − 16`
no "use dispenser" grant exists, at `startTime − 15` still none, the
grant begins at `startTime − 14` (when the window is non-empty), and at
`endTime` the grant has stopped. -/
theorem dispenser_window_amended (s : Shift) (team : List Worker)
    (hw : s.startTime - 14 < s.endTime) :
    (∀ t : Int, accessToDispenserSituation s t = true ↔
      (s.startTime - 15 < t ∧ t < s.endTime)) ∧
    dispenserGrants s team (s.startTime - 16) = [] ∧
    dispenserGrants s team (s.startTime - 15) = [] ∧
    dispenserGrants s team (s.startTime - 14) = team ∧
    dispenserGrants s team s.endTime = [] := by
  have hsit : ∀ t : Int, accessToDispenserSituation s t = true ↔
      (s.startTime - 15 < t ∧ t < s.endTime) := by
    intro t
    simp [accessToDispenserSituation]
  refine ⟨hsit, ?_, ?_, ?_, ?_⟩ <;>
    (simp [dispenserGrants, accessToDispenserSituation]; try omega)

/-- C3 witness: boundary ticks of the Scenario-C shift. -/
theorem dispenser_window_amended_witness :
    (accessToDispenserSituation sh0 470 = true ↔
      (sh0.startTime - 15 < 470 ∧ 470 < sh0.endTime)) ∧
    dispenserGrants sh0 [wPresent] (sh0.startTime - 16) = [] ∧
    dispenserGrants sh0 [wPresent] (sh0.startTime - 15) = [] ∧
    dispenserGrants sh0 [wPresent] (sh0.startTime - 14) = [wPresent] ∧
    dispenserGrants sh0 [wPresent] sh0.endTime = [] := by
  have h := dispenser_window_amended sh0 [wPresent] (by decide)
  exact ⟨h.1 470, h.2.1, h.2.2.1, h.2.2.2.1, h.2.2.2.2⟩

/-- C7: the `standbys` role is capped by `len(lateWorkers)`
(ensembles.py:145-147), so on every tick the number of standbys
appended to `calledStandbys` by a successful actuation is at most the
number of late workers selected on that tick. -/
theorem standbys_capped_by_lateWorkers (pool : List Worker) (s : Shift) :
    (standbysRole pool s (lateWorkersRole pool s)).length
        ≤ (lateWorkersRole pool s).length ∧
    ((lateReplacementActuate s (lateWorkersRole pool s)
        (standbysRole pool s (lateWorkersRole pool s))).2 = false →
      (lateReplacementActuate s (lateWorkersRole pool s)
        (standbysRole pool s (lateWorkersRole pool s))).1.calledStandbys.length
        ≤ s.calledStandbys.length + (lateWorkersRole pool s).length) := by
  have hlen : (standbysRole pool s (lateWorkersRole pool s)).length
      ≤ (lateWorkersRole pool s).length := by
    simp only [standbysRole, selectRole]
    exact List.length_take_le _ _
  refine ⟨hlen, fun hok => ?_⟩
  have happ := lateReplacementActuate_ok s _ _ hok
  rw [happ.2, List.length_append]
  exact Nat.add_le_add_left hlen _

/-- C7 witness: on the example pool and shift one standby is called
for one late worker. -/
theorem standbys_capped_by_lateWorkers_witness :
    (lateReplacementActuate sh0 (lateWorkersRole pool0 sh0)
      (standbysRole pool0 sh0 (lateWorkersRole pool0 sh0))).1.calledStandbys.length
      ≤ sh0.calledStandbys.length + (lateWorkersRole pool0 sh0).length :=
  (standbys_capped_by_lateWorkers pool0 sh0).2 (by decide)

/-- C8: the resolved priorities of the child rules relative to their
`ShiftTeam` parent — the three access rules at parent − 1, the
replacement rule at parent + 1 — so in descending priority order the
replacement actuates strictly before team formation and the access
rules strictly after it within the same tick. -/
theorem child_rule_priorities (p : Int) :
    accessToFactoryPriority p = shiftTeamPriority p - 1 ∧
    accessToDispenserPriority p = shiftTeamPriority p - 1 ∧
    accessToWorkPlacePriority p = shiftTeamPriority p - 1 ∧
    lateWorkersReplacementPriority p = shiftTeamPriority p + 1 ∧
    lateWorkersReplacementPriority p > shiftTeamPriority p ∧
    shiftTeamPriority p > accessToFactoryPriority p ∧
    shiftTeamPriority p > accessToDispenserPriority p ∧
    shiftTeamPriority p > accessToWorkPlacePriority p := by
  unfold accessToFactoryPriority accessToDispenserPriority
    accessToWorkPlacePriority lateWorkersReplacementPriority shiftTeamPriority
  omega

/-- C10: the standby-shortage check precedes both appends in
`LateWorkersReplacement.actuate` (ensembles.py:149-154), so whenever
the error is raised, `shift.cancelled` and `shift.calledStandbys` are
left unchanged. -/
theorem lateReplacementActuate_atomic (s : Shift) (late stb : List Worker)
    (h : (lateReplacementActuate s late stb).2 = true) :
    (lateReplacementActuate s late stb).1.cancelled = s.cancelled ∧
    (lateReplacementActuate s late stb).1.calledStandbys = s.calledStandbys := by
  unfold lateReplacementActuate at h ⊢
  by_cases hc : stb.length < late.length
  · simp [hc]
  · simp [hc] at h

/-- C10 witness: with two late workers and one standby the error is
raised and the example roster is untouched. -/
theorem lateReplacementActuate_atomic_witness :
    (lateReplacementActuate sh0 [wPresent, wMissing] [sbA]).1.cancelled
        = sh0.cancelled ∧
    (lateReplacementActuate sh0 [wPresent, wMissing] [sbA]).1.calledStandbys
        = sh0.calledStandbys :=
  lateReplacementActuate_atomic sh0 [wPresent, wMissing] [sbA] (by decide)

/-- C5: a worker is granted "enter workplace" access on a tick only if
`hasHeadGear` is true for it and it is a member of that tick's resolved
team-workers set (ensembles.py:93-95, 102-103): every granted worker is
drawn from the role selection, whose predicate requires both. -/
theorem workPlaceGrants_only_headgear_team (s : Shift)
    (pool teamWorkers : List Worker) (now : Int) (w : Worker)
    (h : w ∈ workPlaceGrants s pool teamWorkers now) :
    w.hasHeadGear = true ∧ w ∈ teamWorkers := by
  unfold workPlaceGrants at h
  by_cases hs : accessToWorkPlaceSituation s now
  · rw [if_pos hs] at h
    unfold accessToWorkPlaceWorkers selectRole at h
    have h2 := List.mem_of_mem_take h
    have h3 := (List.mem_filter.1 h2).2
    unfold accessToWorkPlaceSelect at h3
    simp only [Bool.and_eq_true, decide_eq_true_eq] at h3
    exact ⟨h3.2, h3.1⟩
  · rw [if_neg hs] at h
    simp at h

/-- C5 witness: on the example, `wPresent` is granted workplace access
at tick 470 and indeed wears head gear and belongs to the team. -/
theorem workPlaceGrants_only_headgear_team_witness :
    wPresent.hasHeadGear = true ∧ wPresent ∈ [wPresent] :=
  workPlaceGrants_only_headgear_team sh0 pool0 [wPresent] 470 wPresent (by decide)

/-- Five concrete team workers for Scenario B: the first three wear
head gear, the last two do not. -/
def tB1 : Worker := ⟨11, true, true⟩

/-- Scenario-B worker 2 (head gear). -/
def tB2 : Worker := ⟨12, true, true⟩

/-- Scenario-B worker 3 (head gear). -/
def tB3 : Worker := ⟨13, true, true⟩

/-- Scenario-B worker 4 (no head gear). -/
def tB4 : Worker := ⟨14, false, true⟩

/-- Scenario-B worker 5 (no head gear). -/
def tB5 : Worker := ⟨15, false, true⟩

/-- The Scenario-B team of five workers, three of them with head gear. -/
def team5 : List Worker := [tB1, tB2, tB3, tB4, tB5]

/-- C4: for a team of 5 workers of which exactly 3 wear head gear, on a
tick inside the workplace-access window the role resolves within its
cardinality bound (at most team size, no minimum) and exactly the 3
head-gear wearers of the team are granted "enter workplace" access. -/
theorem workPlace_scenarioB (s : Shift) (pool team : List Worker) (t : Int)
    (hpool : pool.Nodup) (hteam : team.Nodup) (hsub : team ⊆ pool)
    (_h5 : team.length = 5)
    (h3 : (team.filter (fun w => w.hasHeadGear)).length = 3)
    (ht : accessToWorkPlaceSituation s t = true) :
    (accessToWorkPlaceWorkers pool team).length ≤ team.length ∧
    (∀ w, w ∈ workPlaceGrants s pool team t ↔
      (w ∈ team ∧ w.hasHeadGear = true)) ∧
    (workPlaceGrants s pool team t).length = 3 := by
  set f := pool.filter (accessToWorkPlaceSelect team) with hf
  have hmemf : ∀ w, w ∈ f ↔ (w ∈ pool ∧ w ∈ team ∧ w.hasHeadGear = true) := by
    intro w
    rw [hf, List.mem_filter]
    unfold accessToWorkPlaceSelect
    simp [Bool.and_eq_true, decide_eq_true_eq, and_assoc]
  have hfsub : f ⊆ team := fun w hw => ((hmemf w).1 hw).2.1
  have hfnd : f.Nodup := hpool.filter _
  have hflen : f.length ≤ team.length :=
    (List.subperm_of_subset hfnd hfsub).length_le
  have hrole : accessToWorkPlaceWorkers pool team = f := by
    unfold accessToWorkPlaceWorkers selectRole
    exact List.take_of_length_le hflen
  have hgr : workPlaceGrants s pool team t = f := by
    unfold workPlaceGrants
    rw [if_pos ht, hrole]
  have hmem : ∀ w, w ∈ workPlaceGrants s pool team t ↔
      (w ∈ team ∧ w.hasHeadGear = true) := by
    intro w
    rw [hgr, hmemf]
    constructor
    · exact fun h => h.2
    · exact fun h => ⟨hsub h.1, h⟩
  refine ⟨?_, hmem, ?_⟩
  · rw [hrole]; exact hflen
  · have hperm : List.Perm (workPlaceGrants s pool team t)
        (team.filter (fun w => w.hasHeadGear)) := by
      rw [hgr]
      refine (List.perm_ext_iff_of_nodup hfnd (hteam.filter _)).2 ?_
      intro w
      rw [hmemf, List.mem_filter]
      constructor
      · exact fun h => ⟨h.2.1, h.2.2⟩
      · exact fun h => ⟨hsub h.1, h.1, h.2⟩
    rw [hperm.length_eq, h3]

/-- C4 witness: the Scenario-B team inside the window at tick 470
yields exactly 3 grants, whose member set is the head-gear wearers. -/
theorem workPlace_scenarioB_witness :
    (accessToWorkPlaceWorkers team5 team5).length ≤ team5.length ∧
    (tB1 ∈ workPlaceGrants sh0 team5 team5 470 ↔
      (tB1 ∈ team5 ∧ tB1.hasHeadGear = true)) ∧
    (workPlaceGrants sh0 team5 team5 470).length = 3 := by
  have h := workPlace_scenarioB sh0 team5 team5 470 (by decide) (by decide)
    (fun _ hw => hw) (by decide) (by decide) (by decide)
  exact ⟨h.1, h.2.1 tB1, h.2.2⟩

/-- C6: after `ShiftTeam` resolution and actuation on a tick,
`shift.workers` holds exactly the workers of
`(assigned − cancelled) ∪ calledStandbys` (ensembles.py:16-26): the
role is effectively unbounded (cap 99999), so every candidate
satisfying the predicate is selected and published onto the roster. -/
theorem shiftTeam_publishes_union (pool : List Worker) (s : Shift)
    (hassign : ∀ w ∈ s.assigned, w ∈ pool)
    (hcalled : ∀ w ∈ s.calledStandbys, w ∈ pool)
    (hlen : pool.length ≤ shiftTeamMaxCard) :
    ∀ w, w ∈ (shiftTeamActuate pool s).workers ↔
      ((w ∈ s.assigned ∧ w ∉ s.cancelled) ∨ w ∈ s.calledStandbys) := by
  intro w
  have hfl : (pool.filter (shiftTeamSelect s)).length ≤ shiftTeamMaxCard :=
    le_trans (List.length_filter_le _ _) hlen
  have hws : (shiftTeamActuate pool s).workers = pool.filter (shiftTeamSelect s) := by
    show shiftTeamWorkers pool s = _
    unfold shiftTeamWorkers selectRole
    exact List.take_of_length_le hfl
  rw [hws, List.mem_filter]
  unfold shiftTeamSelect
  rw [decide_eq_true_eq]
  constructor
  · exact fun h => h.2
  · intro h
    refine ⟨?_, h⟩
    rcases h with ⟨ha, _⟩ | hc
    · exact hassign w ha
    · exact hcalled w hc

/-- C6 witness: on the example roster, `wPresent` is assigned, not
cancelled, and published; `sbA` (a standby never called) is not. -/
theorem shiftTeam_publishes_union_witness :
    (wPresent ∈ (shiftTeamActuate pool0 sh0).workers ↔
      ((wPresent ∈ sh0.assigned ∧ wPresent ∉ sh0.cancelled) ∨
        wPresent ∈ sh0.calledStandbys)) ∧
    (sbA ∈ (shiftTeamActuate pool0 sh0).workers ↔
      ((sbA ∈ sh0.assigned ∧ sbA ∉ sh0.cancelled) ∨
        sbA ∈ sh0.calledStandbys)) :=
  ⟨shiftTeam_publishes_union pool0 sh0 (by decide) (by decide) (by decide) wPresent,
   shiftTeam_publishes_union pool0 sh0 (by decide) (by decide) (by decide) sbA⟩

/-- C9: resolution is deterministic — two engine passes started from
identical worker-pool and roster state on the same tick produce
identical resolved role member sets for all five rules (and the same
post-state and abort verdict). -/
theorem resolution_deterministic (pool1 pool2 : List Worker) (s1 s2 : Shift)
    (t1 t2 : Int) (hp : pool1 = pool2) (hs : s1 = s2) (ht : t1 = t2) :
    tickStep pool1 s1 t1 = tickStep pool2 s2 t2 := by
  subst hp
  subst hs
  subst ht
  rfl

/-- C9 witness: two passes over the example state at tick 470 agree. -/
theorem resolution_deterministic_witness :
    tickStep pool0 sh0 470 = tickStep pool0 sh0 470 :=
  resolution_deterministic pool0 pool0 sh0 sh0 470 470 rfl rfl rfl
